import Mathlib

/-
Verification of the generic repository layer in backend/app/crud.py
(class CRUD with operations count, create, read, update, delete, select).

Shallow embedding. A scalar column value is a `Value` (null, integer or
string). An `Entity` is a typed record: one designated identity field `id`
plus an association list of the remaining named fields, mirroring a SQLModel
row. An `EntityModel` is the type descriptor (the list of non-identity field
names) that `CRUD` is bound to. A `Session` is the external transactional
collaborator of spec section 6: it holds the committed rows of the bound
entity type, in store order, together with the next store-assigned integer
identity. All operations are translated from backend/app/crud.py; the points
where the python raises (attribute access on None, SQLAlchemy delete of
None, getattr with an unknown filter key on the model class) become
`Except.error` values of the `Err` type.
-/

/-- A scalar field value: null (python None), an integer, or a string. -/
inductive Value where
  | vnull : Value
  | vnat : Nat → Value
  | vstr : String → Value
deriving DecidableEq, Repr

/-- A row of the bound entity type: the identity field plus the remaining
named fields in schema order.  A field holding `Value.vnull` is a field that
is unset (python None). -/
structure Entity where
  id : Value
  fields : List (String × Value)
deriving DecidableEq, Repr

/-- The type descriptor the repository is bound to: the names of the
non-identity fields of the entity type (the identity field is named id). -/
structure EntityModel where
  fields : List String
deriving DecidableEq, Repr

/-- Errors raised by the python code paths of crud.py:
`attributeNone` models the AttributeError raised when `item.sqlmodel_update`
is evaluated with `item = None` (update of an absent id);
`unmappedNone` models the UnmappedInstanceError raised inside the session
when `session.delete(None)` is invoked (delete of an absent id);
`invalidFilterField` models the AttributeError raised by
`getattr(self.model, key)` while the filter loop builds the query. -/
inductive Err where
  | attributeNone : Err
  | unmappedNone : Err
  | invalidFilterField : Err
deriving DecidableEq, Repr

/-- The uniform success acknowledgement returned by delete: the python dict
with the single entry ok mapped to True.  By construction it carries no
rows-affected count. -/
structure Ack where
  ok : Bool
deriving DecidableEq, Repr

/-- The external Session collaborator (spec section 6): the committed rows of
the bound entity type in store order, and the next integer identity the
store will assign. -/
structure Session where
  rows : List Entity
  nextId : Nat
deriving DecidableEq, Repr

/-- First value bound to key `k` in an association list of fields, if any. -/
def lookupField : List (String × Value) → String → Option Value
  | [], _ => none
  | kv :: rest, k => if kv.1 = k then some kv.2 else lookupField rest k

/-- Attribute access on an entity instance: the identity field is named id,
every other name is looked up among the remaining fields. -/
def Entity.getattr (e : Entity) (k : String) : Value :=
  if k = "id" then e.id else (lookupField e.fields k).getD Value.vnull

/-- pydantic model_dump on an entity: the full field set as a mapping,
including the identity field and every unset (null) field. -/
def Entity.model_dump (e : Entity) : List (String × Value) :=
  ("id", e.id) :: e.fields

/-- SQLModel sqlmodel_update as called in CRUD.update, where the object
argument is the receiver itself (`item.sqlmodel_update(item, update=d)`):
every model field of the receiver is set to the value bound to its name in
the update mapping when present, and kept otherwise. -/
def sqlmodelUpdateSelf (item : Entity) (upd : List (String × Value)) : Entity :=
  { id := (lookupField upd "id").getD item.id,
    fields := item.fields.map (fun kv => (kv.1, (lookupField upd kv.1).getD kv.2)) }

/-- Whether the model class has an attribute named `k`: the identity field or
one of the declared non-identity fields (`getattr(self.model, k)`). -/
def EntityModel.hasField (m : EntityModel) (k : String) : Bool :=
  k == "id" || m.fields.contains k

/-- Whether every key of a filter names an attribute of the model class; when
this fails the python filter loop raises AttributeError while building the
query. -/
def validFilter (m : EntityModel) (w : List (String × Value)) : Bool :=
  w.all (fun kv => m.hasField kv.1)

/-- The AND-conjunction of the equality predicates of a filter, evaluated on
one row (`query.where(getattr(model, key) == value)` for each entry). -/
def rowMatches (w : List (String × Value)) (r : Entity) : Bool :=
  w.all (fun kv => r.getattr kv.1 == kv.2)

/-- Direct key lookup in the store (`session.get(model, id)`). -/
def Session.get (s : Session) (i : Value) : Option Entity :=
  s.rows.find? (fun r => r.id == i)

/-- Replace the first row whose identity is `i` (the row located by its
original primary key when a mutated persistent object is committed). -/
def replaceRow : List Entity → Value → Entity → List Entity
  | [], _, _ => []
  | r :: rest, i, e => if r.id = i then e :: rest else r :: replaceRow rest i e

/-- Commit of a mutated persistent row: the store row located by the original
identity `i` now holds the mutated values. -/
def Session.replaceFirst (s : Session) (i : Value) (e : Entity) : Session :=
  { s with rows := replaceRow s.rows i e }

/-- Remove the first row whose identity is `i`. -/
def removeRow : List Entity → Value → List Entity
  | [], _ => []
  | r :: rest, i => if r.id = i then rest else r :: removeRow rest i

/-- Commit of a staged single-row deletion. -/
def Session.removeFirst (s : Session) (i : Value) : Session :=
  { s with rows := removeRow s.rows i }

/-- SQLAlchemy Session.delete applied to the result of a lookup: invoked with
None (the absent marker) it raises UnmappedInstanceError; invoked with a row
it stages and (with the following commit) applies the removal of that row. -/
def Session.deleteObj (s : Session) (item : Option Entity) : Except Err Session :=
  match item with
  | none => Except.error Err.unmappedNone
  | some e => Except.ok (Session.removeFirst s e.id)

/-- Modelled from the spec: the entity schema definitions (the models file is
not under src) and the identity assignment of the store.  Per spec sections 3
and 6, add plus commit inserts the row, the store assigns the identity on
creation when it is unset, and refresh reloads the stored values onto the
returned entity. -/
def Session.insertCommitRefresh (s : Session) (e : Entity) : Session × Entity :=
  if e.id = Value.vnull then
    let e2 : Entity := { e with id := Value.vnat s.nextId }
    ({ rows := s.rows ++ [e2], nextId := s.nextId + 1 }, e2)
  else
    ({ s with rows := s.rows ++ [e] }, e)

/-- The generic repository: bound to one entity type descriptor and one
session for its whole lifetime. -/
structure CRUD where
  model : EntityModel
  session : Session
deriving DecidableEq, Repr

/-- CRUD.count: scalar count of the rows matching the AND of the filter
entries; an invalid filter key raises while the query is built. -/
def CRUD.count (c : CRUD) (whereArg : Option (List (String × Value))) : Except Err Nat :=
  let w := whereArg.getD []
  if validFilter c.model w then
    Except.ok ((c.session.rows.filter (rowMatches w)).length)
  else
    Except.error Err.invalidFilterField

/-- CRUD.create: add, commit, refresh; returns the reloaded entity. -/
def CRUD.create (c : CRUD) (entity : Entity) : Session × Entity :=
  Session.insertCommitRefresh c.session entity

/-- CRUD.read: direct key lookup; returns the row or the absent marker and
has no error outcome at all. -/
def CRUD.read (c : CRUD) (i : Value) : Option Entity :=
  Session.get c.session i

/-- CRUD.update: loads the row by id, evaluates
`item.sqlmodel_update(item, update=entity.model_dump())`, adds, commits and
refreshes.  When the load returns the absent marker the attribute access on
None raises before any session mutation, so the first component (the session
after the call) is unchanged. -/
def CRUD.update (c : CRUD) (i : Value) (entity : Entity) : Session × Except Err Entity :=
  match CRUD.read c i with
  | none => (c.session, Except.error Err.attributeNone)
  | some item =>
      let item2 := sqlmodelUpdateSelf item (Entity.model_dump entity)
      (Session.replaceFirst c.session i item2, Except.ok item2)

/-- CRUD.delete: with an id, loads the row and passes the lookup result to
the session delete and commits; without an id, bulk-deletes the rows matching
the AND of the filter entries and commits.  The trailing session parameter of
the python signature is accepted and never used; every effect goes through
the bound session.  Both success modes return the same acknowledgement. -/
def CRUD.delete (c : CRUD) (idArg : Option Value)
    (whereArg : Option (List (String × Value)))
    (sessionArg : Option Session) : Session × Except Err Ack :=
  let w := whereArg.getD []
  match idArg with
  | none =>
      if validFilter c.model w then
        ({ rows := c.session.rows.filter (fun r => !(rowMatches w r)),
           nextId := c.session.nextId }, Except.ok { ok := true })
      else
        (c.session, Except.error Err.invalidFilterField)
  | some i =>
      match Session.deleteObj c.session (CRUD.read c i) with
      | Except.error e => (c.session, Except.error e)
      | Except.ok s2 => (s2, Except.ok { ok := true })

/-- Default pagination offset of CRUD.select (python `skip: int = 0`). -/
def defaultSkip : Nat := 0

/-- Default pagination row cap of CRUD.select (python `limit: int = 100`). -/
def defaultLimit : Nat := 100

/-- CRUD.select: filters by the AND of the filter entries, applies the
offset, then the row cap, and returns the rows when non-empty or the absent
marker (python None) when the window is empty. -/
def CRUD.select (c : CRUD) (whereArg : Option (List (String × Value)))
    (skip : Nat) (limit : Nat) : Except Err (Option (List Entity)) :=
  let w := whereArg.getD []
  if validFilter c.model w then
    let results := ((c.session.rows.filter (rowMatches w)).drop skip).take limit
    Except.ok (if results.isEmpty then none else some results)
  else
    Except.error Err.invalidFilterField

/-- Looking up a key in a cons whose head has a different key skips the
head. -/
theorem lookupField_cons_of_ne (kv : String × Value) (l : List (String × Value))
    (k : String) (h : kv.1 ≠ k) : lookupField (kv :: l) k = lookupField l k := by
  simp [lookupField, h]

/-- Rebuilding an association list by looking each of its keys up in a second
list with the same key sequence yields the second list, when the keys are
distinct. -/
theorem map_lookup_eq_of_keys_eq :
    ∀ (l₂ l₁ : List (String × Value)),
      l₁.map Prod.fst = l₂.map Prod.fst →
      (l₂.map Prod.fst).Nodup →
      l₂.map (fun kv => (kv.1, (lookupField l₁ kv.1).getD kv.2)) = l₁ := by
  intro l₂
  induction l₂ with
  | nil =>
      intro l₁ hk _
      cases l₁ with
      | nil => rfl
      | cons a t => simp at hk
  | cons b t₂ ih =>
      intro l₁ hk hnd
      cases l₁ with
      | nil => simp at hk
      | cons a t₁ =>
          simp only [List.map_cons, List.cons.injEq] at hk
          obtain ⟨hab, ht⟩ := hk
          simp only [List.map_cons, List.nodup_cons] at hnd
          obtain ⟨hb, hndt⟩ := hnd
          have hhead : (b.1, (lookupField (a :: t₁) b.1).getD b.2) = a := by
            have hlook : lookupField (a :: t₁) b.1 = some a.2 := by
              simp [lookupField, hab]
            rw [hlook]
            exact Prod.ext hab.symm rfl
          have htail : t₂.map (fun kv => (kv.1, (lookupField (a :: t₁) kv.1).getD kv.2)) = t₁ := by
            have hstep : ∀ kv ∈ t₂,
                (kv.1, (lookupField (a :: t₁) kv.1).getD kv.2)
                  = (kv.1, (lookupField t₁ kv.1).getD kv.2) := by
              intro kv hkv
              have hkmem : kv.1 ∈ t₂.map Prod.fst := List.mem_map_of_mem Prod.fst hkv
              have hne : a.1 ≠ kv.1 := by
                intro hcontra
                apply hb
                rw [← hab, hcontra]
                exact hkmem
              rw [lookupField_cons_of_ne a t₁ kv.1 hne]
            rw [List.map_congr_left hstep]
            exact ih t₁ ht hndt
          calc (b :: t₂).map (fun kv => (kv.1, (lookupField (a :: t₁) kv.1).getD kv.2))
              = (b.1, (lookupField (a :: t₁) b.1).getD b.2)
                  :: t₂.map (fun kv => (kv.1, (lookupField (a :: t₁) kv.1).getD kv.2)) := rfl
            _ = a :: t₁ := by rw [hhead, htail]

/-- The merge evaluated by CRUD.update replaces the loaded row wholesale with
the supplied entity when the two share the schema (same key sequence,
distinct, not containing the reserved identity name): every field, the
identity and the unset ones included, takes the supplied value. -/
theorem sqlmodelUpdateSelf_model_dump_eq (item entity : Entity)
    (hkeys : entity.fields.map Prod.fst = item.fields.map Prod.fst)
    (hnd : (item.fields.map Prod.fst).Nodup)
    (hid : "id" ∉ item.fields.map Prod.fst) :
    sqlmodelUpdateSelf item (Entity.model_dump entity) = entity := by
  unfold sqlmodelUpdateSelf Entity.model_dump
  have hidlook : lookupField (("id", entity.id) :: entity.fields) "id" = some entity.id := by
    simp [lookupField]
  have hfields : item.fields.map
      (fun kv => (kv.1, (lookupField (("id", entity.id) :: entity.fields) kv.1).getD kv.2))
      = entity.fields := by
    have hstep : ∀ kv ∈ item.fields,
        (kv.1, (lookupField (("id", entity.id) :: entity.fields) kv.1).getD kv.2)
          = (kv.1, (lookupField entity.fields kv.1).getD kv.2) := by
      intro kv hkv
      have hkmem : kv.1 ∈ item.fields.map Prod.fst := List.mem_map_of_mem Prod.fst hkv
      have hne : ("id", entity.id).1 ≠ kv.1 := by
        intro hcontra
        apply hid
        have hc2 : "id" = kv.1 := hcontra
        rw [hc2]
        exact hkmem
      rw [lookupField_cons_of_ne ("id", entity.id) entity.fields kv.1 hne]
    rw [List.map_congr_left hstep]
    exact map_lookup_eq_of_keys_eq item.fields entity.fields hkeys hnd
  rw [hidlook, hfields]
  rfl

/-- C1: on a stored row with identity id and a replacement entity of the same
schema, update performs a full replace by field: every field of the full
field set of the supplied entity, the unset and null ones included,
overwrites the corresponding field of the loaded row, so the stored row
becomes the supplied entity wholesale; the result is committed into the
session and the returned entity equals the stored row. -/
theorem update_full_replace_by_field (c : CRUD) (i : Value) (entity item : Entity)
    (hget : Session.get c.session i = some item)
    (hkeys : entity.fields.map Prod.fst = item.fields.map Prod.fst)
    (hnd : (item.fields.map Prod.fst).Nodup)
    (hid : "id" ∉ item.fields.map Prod.fst) :
    CRUD.update c i entity = (Session.replaceFirst c.session i entity, Except.ok entity) := by
  unfold CRUD.update CRUD.read
  rw [hget]
  show (Session.replaceFirst c.session i (sqlmodelUpdateSelf item (Entity.model_dump entity)),
        Except.ok (sqlmodelUpdateSelf item (Entity.model_dump entity)))
      = (Session.replaceFirst c.session i entity, Except.ok entity)
  rw [sqlmodelUpdateSelf_model_dump_eq item entity hkeys hnd hid]

/-- C1 witness: a store holding the row with identity 1 and title A, updated
with an entity whose title is explicitly unset: the stored and returned row
has the unset title. -/
theorem update_full_replace_by_field_witness :
    Session.get (Session.mk [Entity.mk (Value.vnat 1) [("title", Value.vstr "A")]] 2)
        (Value.vnat 1) = some (Entity.mk (Value.vnat 1) [("title", Value.vstr "A")])
    ∧ CRUD.update
        (CRUD.mk (EntityModel.mk ["title"])
          (Session.mk [Entity.mk (Value.vnat 1) [("title", Value.vstr "A")]] 2))
        (Value.vnat 1) (Entity.mk (Value.vnat 1) [("title", Value.vnull)])
      = (Session.replaceFirst
          (Session.mk [Entity.mk (Value.vnat 1) [("title", Value.vstr "A")]] 2)
          (Value.vnat 1) (Entity.mk (Value.vnat 1) [("title", Value.vnull)]),
         Except.ok (Entity.mk (Value.vnat 1) [("title", Value.vnull)])) :=
  ⟨rfl,
   update_full_replace_by_field
     (CRUD.mk (EntityModel.mk ["title"])
       (Session.mk [Entity.mk (Value.vnat 1) [("title", Value.vstr "A")]] 2))
     (Value.vnat 1) (Entity.mk (Value.vnat 1) [("title", Value.vnull)])
     (Entity.mk (Value.vnat 1) [("title", Value.vstr "A")])
     rfl rfl (by decide) (by decide)⟩

/-- C2: evaluation at the failing input.  The store holds one row with
identity 1; update at id 1 with an entity carrying identity 2 stores and
returns a row whose identity is 2, not 1: the identity field is overwritten
by the full dump of the supplied entity, contradicting immutability of the
identity after creation. -/
theorem update_overwrites_identity_failing_input :
    (CRUD.update
        (CRUD.mk (EntityModel.mk ["title"])
          (Session.mk [Entity.mk (Value.vnat 1) [("title", Value.vstr "A")]] 2))
        (Value.vnat 1) (Entity.mk (Value.vnat 2) [("title", Value.vstr "B")])).2
      = Except.ok (Entity.mk (Value.vnat 2) [("title", Value.vstr "B")])
    ∧ (CRUD.update
        (CRUD.mk (EntityModel.mk ["title"])
          (Session.mk [Entity.mk (Value.vnat 1) [("title", Value.vstr "A")]] 2))
        (Value.vnat 1) (Entity.mk (Value.vnat 2) [("title", Value.vstr "B")])).1.rows
      = [Entity.mk (Value.vnat 2) [("title", Value.vstr "B")]]
    ∧ Value.vnat 2 ≠ Value.vnat 1 :=
  ⟨rfl, rfl, by decide⟩

/-- C3 counterexample: on an empty store, the load step of delete-by-id does
not fail: CRUD.read returns the absent marker (its type has no error outcome
at all), and the call still reaches the session delete, which is invoked
with that absent value and is the step that raises, as the third conjunct
shows by evaluating Session.deleteObj on the absent marker.  This refutes
the claim that a NotFound is surfaced by loading the row before any delete
is attempted against the session. -/
theorem delete_absent_not_load_failure_cex :
    CRUD.read (CRUD.mk (EntityModel.mk ["title"]) (Session.mk [] 0)) (Value.vnat 1) = none
    ∧ CRUD.delete (CRUD.mk (EntityModel.mk ["title"]) (Session.mk [] 0))
        (some (Value.vnat 1)) none none
      = (Session.mk [] 0, Except.error Err.unmappedNone)
    ∧ Session.deleteObj (Session.mk [] 0) none = Except.error Err.unmappedNone :=
  ⟨rfl, rfl, rfl⟩

/-- C3 amended: for an id absent from the store, delete-by-id fails, but not
at the load step: the load returns the absent marker without error, the
session delete is then invoked with that absent value and raises the
unmapped-instance error before any commit, and the store is unchanged. -/
theorem delete_absent_fails_in_session_delete (c : CRUD) (i : Value)
    (wa : Option (List (String × Value))) (sa : Option Session)
    (h : Session.get c.session i = none) :
    CRUD.delete c (some i) wa sa = (c.session, Except.error Err.unmappedNone) := by
  simp only [CRUD.delete, CRUD.read, h, Session.deleteObj]

/-- C3 witness: a one-row store and an id not stored there. -/
theorem delete_absent_fails_in_session_delete_witness :
    Session.get (Session.mk [Entity.mk (Value.vnat 1) [("title", Value.vstr "A")]] 2)
        (Value.vnat 7) = none
    ∧ CRUD.delete
        (CRUD.mk (EntityModel.mk ["title"])
          (Session.mk [Entity.mk (Value.vnat 1) [("title", Value.vstr "A")]] 2))
        (some (Value.vnat 7)) none none
      = (Session.mk [Entity.mk (Value.vnat 1) [("title", Value.vstr "A")]] 2,
         Except.error Err.unmappedNone) :=
  ⟨rfl,
   delete_absent_fails_in_session_delete
     (CRUD.mk (EntityModel.mk ["title"])
       (Session.mk [Entity.mk (Value.vnat 1) [("title", Value.vstr "A")]] 2))
     (Value.vnat 7) none none rfl⟩

/-- C4: for an id absent from the store, update fails (the attribute access
on the absent load result raises), no row is created, and the session after
the call is exactly the session before it. -/
theorem update_absent_fails_store_unchanged (c : CRUD) (i : Value) (entity : Entity)
    (h : Session.get c.session i = none) :
    CRUD.update c i entity = (c.session, Except.error Err.attributeNone) := by
  simp only [CRUD.update, CRUD.read, h]

/-- C4 witness: updating an id on an empty store fails and leaves the store
empty. -/
theorem update_absent_fails_store_unchanged_witness :
    Session.get (Session.mk [] 5) (Value.vnat 1) = none
    ∧ CRUD.update (CRUD.mk (EntityModel.mk ["title"]) (Session.mk [] 5)) (Value.vnat 1)
        (Entity.mk Value.vnull [("title", Value.vstr "B")])
      = (Session.mk [] 5, Except.error Err.attributeNone) :=
  ⟨rfl,
   update_absent_fails_store_unchanged
     (CRUD.mk (EntityModel.mk ["title"]) (Session.mk [] 5)) (Value.vnat 1)
     (Entity.mk Value.vnull [("title", Value.vstr "B")]) rfl⟩

/-- C9: create appends exactly one row to the store, the returned entity is
that stored row, its identity field is never null even when the input
identity was unset, and the non-identity fields of the input are preserved. -/
theorem create_assigns_identity (c : CRUD) (entity : Entity) :
    (CRUD.create c entity).2.id ≠ Value.vnull
    ∧ (CRUD.create c entity).1.rows = c.session.rows ++ [(CRUD.create c entity).2]
    ∧ (CRUD.create c entity).2.fields = entity.fields := by
  unfold CRUD.create Session.insertCommitRefresh
  by_cases h : entity.id = Value.vnull
  · simp [h]
  · simp [h]

/-- C10: the session parameter accepted by the delete signature is ignored:
the outcome of delete is the same whatever value is passed for it, every
effect being issued against the session bound at construction. -/
theorem delete_ignores_session_argument (c : CRUD) (idArg : Option Value)
    (whereArg : Option (List (String × Value))) (sa sb : Option Session) :
    CRUD.delete c idArg whereArg sa = CRUD.delete c idArg whereArg sb := rfl

/-- C5: delete with no id bulk-deletes exactly the rows matching the AND of
the filter entries and commits; an empty or absent filter deletes every row
of the bound type; and both the by-filter and the by-id mode return the same
uniform acknowledgement, the record with the single boolean field ok set to
true, which by construction carries no rows-affected count. -/
theorem delete_by_filter_and_ack (c : CRUD) (w : List (String × Value)) (sa : Option Session)
    (hw : validFilter c.model w = true) :
    CRUD.delete c none (some w) sa
      = (Session.mk (c.session.rows.filter (fun r => !(rowMatches w r))) c.session.nextId,
         Except.ok (Ack.mk true))
    ∧ (∀ r, rowMatches w r = true ↔ ∀ kv ∈ w, Entity.getattr r kv.1 = kv.2)
    ∧ CRUD.delete c none none sa = (Session.mk [] c.session.nextId, Except.ok (Ack.mk true))
    ∧ (∀ i item, Session.get c.session i = some item →
        (CRUD.delete c (some i) (some w) sa).2 = Except.ok (Ack.mk true)) := by
  refine ⟨?_, ?_, ?_, ?_⟩
  · simp only [CRUD.delete, Option.getD_some, hw, if_true]
  · intro r
    simp [rowMatches, List.all_eq_true, beq_iff_eq]
  · simp [CRUD.delete, validFilter, rowMatches]
  · intro i item hget
    simp only [CRUD.delete, CRUD.read, hget, Session.deleteObj]

/-- C5 witness: a two-row store, a filter on the title field matching only
the first row. -/
theorem delete_by_filter_and_ack_witness :
    validFilter (EntityModel.mk ["title"]) [("title", Value.vstr "A")] = true
    ∧ CRUD.delete
        (CRUD.mk (EntityModel.mk ["title"])
          (Session.mk [Entity.mk (Value.vnat 1) [("title", Value.vstr "A")],
                       Entity.mk (Value.vnat 2) [("title", Value.vstr "B")]] 3))
        none (some [("title", Value.vstr "A")]) none
      = (Session.mk
          (List.filter (fun r => !(rowMatches [("title", Value.vstr "A")] r))
            [Entity.mk (Value.vnat 1) [("title", Value.vstr "A")],
             Entity.mk (Value.vnat 2) [("title", Value.vstr "B")]]) 3,
         Except.ok (Ack.mk true)) :=
  ⟨by decide,
   (delete_by_filter_and_ack
     (CRUD.mk (EntityModel.mk ["title"])
       (Session.mk [Entity.mk (Value.vnat 1) [("title", Value.vstr "A")],
                    Entity.mk (Value.vnat 2) [("title", Value.vstr "B")]] 3))
     [("title", Value.vstr "A")] none (by decide)).1⟩

/-- Unfolding of select on a valid filter: the filtered rows, then the
offset, then the row cap, then the empty-to-absent collapse. -/
theorem select_eq_of_valid (c : CRUD) (w : List (String × Value)) (sk lim : Nat)
    (hw : validFilter c.model w = true) :
    CRUD.select c (some w) sk lim
      = Except.ok (if (((c.session.rows.filter (rowMatches w)).drop sk).take lim).isEmpty
          then none
          else some (((c.session.rows.filter (rowMatches w)).drop sk).take lim)) := by
  simp only [CRUD.select, Option.getD_some, hw, if_true]

/-- C6: select filters by the AND-conjunction, then applies the offset, then
the row cap: with exactly the matching rows r1, r2, r3 stored in that order,
skip 1 and limit 1 return exactly the singleton r2, and the default window
(skip 0, limit 100) returns all three in store order. -/
theorem select_window_semantics (c : CRUD) (w : List (String × Value)) (r1 r2 r3 : Entity)
    (hw : validFilter c.model w = true)
    (h3 : c.session.rows.filter (rowMatches w) = [r1, r2, r3]) :
    CRUD.select c (some w) 1 1 = Except.ok (some [r2])
    ∧ CRUD.select c (some w) defaultSkip defaultLimit = Except.ok (some [r1, r2, r3]) := by
  constructor
  · rw [select_eq_of_valid c w 1 1 hw, h3]
    rfl
  · rw [select_eq_of_valid c w defaultSkip defaultLimit hw, h3]
    rfl

/-- C6 witness: three rows with the same title, filtered by that title. -/
theorem select_window_semantics_witness :
    validFilter (EntityModel.mk ["title"]) [("title", Value.vstr "A")] = true
    ∧ List.filter (rowMatches [("title", Value.vstr "A")])
        [Entity.mk (Value.vnat 1) [("title", Value.vstr "A")],
         Entity.mk (Value.vnat 2) [("title", Value.vstr "A")],
         Entity.mk (Value.vnat 3) [("title", Value.vstr "A")]]
      = [Entity.mk (Value.vnat 1) [("title", Value.vstr "A")],
         Entity.mk (Value.vnat 2) [("title", Value.vstr "A")],
         Entity.mk (Value.vnat 3) [("title", Value.vstr "A")]]
    ∧ CRUD.select
        (CRUD.mk (EntityModel.mk ["title"])
          (Session.mk [Entity.mk (Value.vnat 1) [("title", Value.vstr "A")],
                       Entity.mk (Value.vnat 2) [("title", Value.vstr "A")],
                       Entity.mk (Value.vnat 3) [("title", Value.vstr "A")]] 4))
        (some [("title", Value.vstr "A")]) 1 1
      = Except.ok (some [Entity.mk (Value.vnat 2) [("title", Value.vstr "A")]]) :=
  ⟨by decide, rfl,
   (select_window_semantics
     (CRUD.mk (EntityModel.mk ["title"])
       (Session.mk [Entity.mk (Value.vnat 1) [("title", Value.vstr "A")],
                    Entity.mk (Value.vnat 2) [("title", Value.vstr "A")],
                    Entity.mk (Value.vnat 3) [("title", Value.vstr "A")]] 4))
     [("title", Value.vstr "A")]
     (Entity.mk (Value.vnat 1) [("title", Value.vstr "A")])
     (Entity.mk (Value.vnat 2) [("title", Value.vstr "A")])
     (Entity.mk (Value.vnat 3) [("title", Value.vstr "A")])
     (by decide) rfl).1⟩

/-- C7: on a valid filter select never returns the empty container; when the
pagination window holds zero rows it returns the explicit absent marker as a
success, not an error; and when the window is non-empty it returns that
non-empty ordered sequence. -/
theorem select_absent_marker (c : CRUD) (w : List (String × Value)) (sk lim : Nat)
    (hw : validFilter c.model w = true) :
    CRUD.select c (some w) sk lim ≠ Except.ok (some [])
    ∧ (((c.session.rows.filter (rowMatches w)).drop sk).take lim = [] →
        CRUD.select c (some w) sk lim = Except.ok none)
    ∧ (∀ l, ((c.session.rows.filter (rowMatches w)).drop sk).take lim = l → l ≠ [] →
        CRUD.select c (some w) sk lim = Except.ok (some l)) := by
  refine ⟨?_, ?_, ?_⟩
  · rw [select_eq_of_valid c w sk lim hw]
    generalize ((c.session.rows.filter (rowMatches w)).drop sk).take lim = R
    cases R with
    | nil => simp
    | cons a t => simp
  · intro hempty
    rw [select_eq_of_valid c w sk lim hw, hempty]
    rfl
  · intro l hl hne
    rw [select_eq_of_valid c w sk lim hw, hl]
    have : l.isEmpty = false := by
      cases l with
      | nil => exact absurd rfl hne
      | cons a t => rfl
    rw [this]
    rfl

/-- C7 witness: a store with one row, a filter matching no row: the result is
the absent marker as a success. -/
theorem select_absent_marker_witness :
    validFilter (EntityModel.mk ["title"]) [("title", Value.vstr "Z")] = true
    ∧ CRUD.select
        (CRUD.mk (EntityModel.mk ["title"])
          (Session.mk [Entity.mk (Value.vnat 1) [("title", Value.vstr "A")]] 2))
        (some [("title", Value.vstr "Z")]) 0 100 = Except.ok none :=
  ⟨by decide,
   (select_absent_marker
     (CRUD.mk (EntityModel.mk ["title"])
       (Session.mk [Entity.mk (Value.vnat 1) [("title", Value.vstr "A")]] 2))
     [("title", Value.vstr "Z")] 0 100 (by decide)).2.1 rfl⟩

/-- In a row list whose identities are pairwise distinct, the first row found
with a given identity is any member carrying that identity. -/
theorem find_first_of_nodup :
    ∀ (rows : List Entity) (i : Value) (r : Entity),
      r ∈ rows → r.id = i → (rows.map Entity.id).Nodup →
      rows.find? (fun x => x.id == i) = some r := by
  intro rows
  induction rows with
  | nil =>
      intro i r hmem
      exact absurd hmem (List.not_mem_nil r)
  | cons a t ih =>
      intro i r hmem hid hnd
      simp only [List.map_cons, List.nodup_cons] at hnd
      obtain ⟨ha, hndt⟩ := hnd
      by_cases hcase : a.id = i
      · have hpa : (fun x => x.id == i) a = true := by
          simp [hcase]
        rw [List.find?_cons_of_pos t hpa]
        cases List.mem_cons.mp hmem with
        | inl hra => rw [hra]
        | inr hrt =>
            exfalso
            apply ha
            rw [hcase, ← hid]
            exact List.mem_map_of_mem Entity.id hrt
      · have hpa : ¬((fun x => x.id == i) a = true) := by
          simp [hcase]
        rw [List.find?_cons_of_neg t hpa]
        cases List.mem_cons.mp hmem with
        | inl hra => exact absurd (hra ▸ hid) hcase
        | inr hrt => exact ih i r hrt hid hndt

/-- C8: read is a direct key lookup with no error outcome (its result type is
the optional entity): for an identity carried by no stored row it returns the
explicit absent marker, and for a stored row with that identity (identities
being pairwise distinct) it returns exactly that row. -/
theorem read_absent_and_present (c : CRUD) (i : Value) :
    ((∀ r ∈ c.session.rows, r.id ≠ i) → CRUD.read c i = none)
    ∧ (∀ r, r ∈ c.session.rows → r.id = i → (c.session.rows.map Entity.id).Nodup →
        CRUD.read c i = some r) := by
  constructor
  · intro h
    unfold CRUD.read Session.get
    apply List.find?_eq_none.mpr
    intro x hx
    simp only [beq_iff_eq]
    exact h x hx
  · intro r hmem hid hnd
    unfold CRUD.read Session.get
    exact find_first_of_nodup c.session.rows i r hmem hid hnd

/-- C8 witness: an id never inserted yields the absent marker on the empty
store, and a stored id yields the stored row. -/
theorem read_absent_and_present_witness :
    CRUD.read (CRUD.mk (EntityModel.mk ["title"]) (Session.mk [] 0)) (Value.vnat 9) = none
    ∧ CRUD.read
        (CRUD.mk (EntityModel.mk ["title"])
          (Session.mk [Entity.mk (Value.vnat 1) [("title", Value.vstr "A")]] 2))
        (Value.vnat 1)
      = some (Entity.mk (Value.vnat 1) [("title", Value.vstr "A")]) :=
  ⟨(read_absent_and_present (CRUD.mk (EntityModel.mk ["title"]) (Session.mk [] 0))
      (Value.vnat 9)).1 (by decide),
   (read_absent_and_present
      (CRUD.mk (EntityModel.mk ["title"])
        (Session.mk [Entity.mk (Value.vnat 1) [("title", Value.vstr "A")]] 2))
      (Value.vnat 1)).2
     (Entity.mk (Value.vnat 1) [("title", Value.vstr "A")]) (by decide) rfl (by decide)⟩
